import Mathlib

/-!
Shallow embedding of `src/main.py` of the add_music_to_video repository
(a PySide6 GUI that merges a video file with a music track via MoviePy),
together with theorems settling the specification claims.

Modelling conventions:
* An audio clip is its list of samples (rationals) plus a duration.
* External-library behaviour (which MoviePy mechanisms exist, whether a
  call raises) is an explicit environment of booleans / `Except` values;
  the embedded functions are deterministic in that environment.
* Python exceptions become `Except String`; Qt signals become an explicit
  list of emitted `Signal` values.
-/

/-- An audio clip: its samples and its duration (seconds, as `ℚ`). -/
structure AudioClip where
  samples : List ℚ
  duration : ℚ
deriving DecidableEq

/-- A video clip as seen by `MergeWorker.run`: `v.duration`, `v.fps`
(either may be `None` in Python) and the optional embedded audio track
`v.audio`. -/
structure VideoClip where
  duration : Option ℚ
  fps : Option ℚ
  audio : Option AudioClip
deriving DecidableEq

/-- Scaling every sample of a clip by `level`: the common semantics of the
three equivalent MoviePy volume mechanisms (`clip.volumex`, the `volumex`
effect applied through `clip.fx`, and the per-sample transform
`clip.fl (fun gf t => gf t * level)`). -/
def scaleSamples (level : ℚ) (c : AudioClip) : AudioClip :=
  { samples := c.samples.map (fun s => s * level), duration := c.duration }

/-- The capabilities of the linked MoviePy build, as observed by
`_safe_vol`: which of the three volume mechanisms exist on the clip /
module, and whether calling each one raises. -/
structure VolCaps where
  hasVolumexMethod : Bool
  volumexMethodRaises : Bool
  fxFunctionDefined : Bool
  fxCallRaises : Bool
  hasFlMethod : Bool
  flCallRaises : Bool
deriving DecidableEq

/-- Error message of the `RuntimeError` raised by `_safe_vol` when no
mechanism works and the level is not ≈ 1.0 (src/main.py line 130). -/
def volErrorMsg : String := "Volume effect not available in this MoviePy build."

/-- The epsilon of the no-op test `abs(level - 1.0) < 1e-9`. -/
def volEps : ℚ := 1 / 1000000000

/-- Embedding of `_safe_vol` (src/main.py lines 84–130): try the native
`clip.volumex` method, then the effect function via `clip.fx`, then the
manual per-sample transform via `clip.fl`; each attempt is skipped when the
mechanism is absent or its call raises. If all fail, return the clip
unchanged when `|level - 1.0| < 1e-9`, otherwise raise `RuntimeError`. -/
def _safe_vol (caps : VolCaps) (clip : AudioClip) (level : ℚ) :
    Except String AudioClip :=
  if caps.hasVolumexMethod && !caps.volumexMethodRaises then
    Except.ok (scaleSamples level clip)
  else if caps.fxFunctionDefined && !caps.fxCallRaises then
    Except.ok (scaleSamples level clip)
  else if caps.hasFlMethod && !caps.flCallRaises then
    Except.ok (scaleSamples level clip)
  else if |level - 1| < volEps then
    Except.ok clip
  else
    Except.error volErrorMsg

/-- The three scaling mechanisms of the Volume Adapter, in the order the
spec lists them: native method, effect function, per-sample transform. -/
inductive VolMech
  | native
  | fxEffect
  | flTransform
deriving DecidableEq

/-- Whether a mechanism is present in the linked library build. -/
def mechAvailable (caps : VolCaps) : VolMech → Bool
  | VolMech.native => caps.hasVolumexMethod
  | VolMech.fxEffect => caps.fxFunctionDefined
  | VolMech.flTransform => caps.hasFlMethod

/-- Whether invoking a mechanism raises. -/
def mechRaises (caps : VolCaps) : VolMech → Bool
  | VolMech.native => caps.volumexMethodRaises
  | VolMech.fxEffect => caps.fxCallRaises
  | VolMech.flTransform => caps.flCallRaises

/-- The first mechanism, in the fixed order native → fx → fl, that is
available and does not raise. -/
def firstWorkingMech (caps : VolCaps) : Option VolMech :=
  [VolMech.native, VolMech.fxEffect, VolMech.flTransform].find?
    (fun m => mechAvailable caps m && !mechRaises caps m)

/-- The Volume Adapter as the spec words it: take the first mechanism in
the fixed order that does not raise and return its result; if every
mechanism fails, return the clip unchanged when `|level - 1.0| < 1e-9` and
otherwise raise a capability-unavailable error. (All three mechanisms
scale every sample by `level`.) -/
def volAdapterSpec (caps : VolCaps) (clip : AudioClip) (level : ℚ) :
    Except String AudioClip :=
  match firstWorkingMech caps with
  | some _ => Except.ok (scaleSamples level clip)
  | none =>
    if |level - 1| < volEps then Except.ok clip
    else Except.error volErrorMsg

/-- C1: `_safe_vol` tries the mechanisms in the fixed order native
`volumex` → `clip.fx` effect → `clip.fl` transform and returns the result
of the first one that does not raise; if all fail it returns the clip
unchanged when `|level - 1.0| < 1e-9` and otherwise raises the
capability-unavailable error. -/
theorem safe_vol_matches_adapter_spec (caps : VolCaps) (clip : AudioClip)
    (level : ℚ) : _safe_vol caps clip level = volAdapterSpec caps clip level := by
  cases caps with
  | mk h1 r1 h2 r2 h3 r3 =>
    cases h1 <;> cases r1 <;> cases h2 <;> cases r2 <;> cases h3 <;> cases r3 <;>
      simp [_safe_vol, volAdapterSpec, firstWorkingMech, mechAvailable,
        mechRaises, List.find?]

/-- C7: at `level = 1.0` the Volume Adapter always succeeds and the result
is sample-for-sample identical to the input clip. -/
theorem safe_vol_level_one_identity (caps : VolCaps) (clip : AudioClip) :
    ∃ c, _safe_vol caps clip 1 = Except.ok c ∧ c.samples = clip.samples := by
  unfold _safe_vol
  repeat' split
  all_goals first
    | exact ⟨scaleSamples 1 clip, rfl, by simp [scaleSamples]⟩
    | exact ⟨clip, rfl, rfl⟩
    | (rename_i hlt; exact absurd (by norm_num [volEps]) hlt)

/-- Equality of `Except` outcomes is decidable when it is on both sides. -/
instance exceptDecEq {ε α : Type} [DecidableEq ε] [DecidableEq α] :
    DecidableEq (Except ε α) := fun x y =>
  match x, y with
  | Except.ok a, Except.ok b =>
    if h : a = b then Decidable.isTrue (congrArg Except.ok h)
    else Decidable.isFalse (fun hc => h (Except.ok.inj hc))
  | Except.error a, Except.error b =>
    if h : a = b then Decidable.isTrue (congrArg Except.error h)
    else Decidable.isFalse (fun hc => h (Except.error.inj hc))
  | Except.ok _, Except.error _ =>
    Decidable.isFalse (fun hc => Except.noConfusion hc)
  | Except.error _, Except.ok _ =>
    Decidable.isFalse (fun hc => Except.noConfusion hc)

/-- A Qt signal emitted by the merge worker: a progress milestone, the
success signal carrying the output path, or the failure signal carrying
the stringified exception. -/
inductive Signal
  | progress (n : ℕ)
  | finished (path : String)
  | failed (msg : String)
deriving DecidableEq

/-- `true` exactly on the two terminal signals (`finished` / `failed`). -/
def isTerminalSignal : Signal → Bool
  | Signal.progress _ => false
  | Signal.finished _ => true
  | Signal.failed _ => true

/-- Python's `x or d` for an optional float: `None` and `0.0` both give the
default (used in `v.duration or 0` and `v.fps or 25`). -/
def pythonOr (x : Option ℚ) (d : ℚ) : ℚ :=
  match x with
  | none => d
  | some v => if v = 0 then d else v

/-- Modelled from the spec: the external library's `audio_loop` effect
(src imports it from `moviepy.audio.fx.AudioLoop`; its body is not in this
repository). Per the spec it extends/loops the clip so that the music
plays for the requested duration: the samples are the original list
repeated enough times, and the resulting duration is the requested one. -/
def audio_loop_sem (c : AudioClip) (d : ℚ) : AudioClip :=
  { samples := (List.replicate ⌈d / c.duration⌉₊ c.samples).flatten,
    duration := d }

/-- Embedding of the looping step (src/main.py lines 216–220): loop only
when the video duration is positive and the `audio_loop` import succeeded;
an exception from `audio_loop` is swallowed and the music keeps its
natural length. -/
def loopStep (avail raises : Bool) (duration : ℚ) (music : AudioClip) :
    AudioClip :=
  if duration > 0 && avail then
    (if raises then music else audio_loop_sem music duration)
  else music

/-- Modelled from the spec: MoviePy's `CompositeAudioClip` (not in this
repository) combines clips additively into one stream: samples add
pointwise, the duration is the longest one. -/
def addSamples : List ℚ → List ℚ → List ℚ
  | [], ys => ys
  | x :: xs, [] => x :: xs
  | x :: xs, y :: ys => (x + y) :: addSamples xs ys

/-- Modelled from the spec: additive combination of audio clips (the
`CompositeAudioClip([bed, music])` call). -/
def CompositeAudioClip (clips : List AudioClip) : AudioClip :=
  { samples := clips.foldr (fun c acc => addSamples c.samples acc) [],
    duration := clips.foldr (fun c acc => max c.duration acc) 0 }

/-- `v.with_audio(a)`: the video with `a` as its (only) audio track. -/
def with_audio (v : VideoClip) (a : AudioClip) : VideoClip :=
  { v with audio := some a }

/-- The record passed to `write_videofile` on success: output path, the
merged clip, and the frame rate. -/
structure WrittenFile where
  path : String
  clip : VideoClip
  fps : ℚ
deriving DecidableEq

/-- The environment a single `MergeWorker.run` executes in: the global
`ENGINE` string, the outcomes of the external-library calls (loading
either input may raise), the volume capabilities seen by the two
`_safe_vol` calls, whether `audio_loop` was importable and whether calling
it raises, and the outcome of `write_videofile`. -/
structure WorkerEnv where
  engine : String
  loadVideo : Except String VideoClip
  loadMusic : Except String AudioClip
  musicCaps : VolCaps
  originalCaps : VolCaps
  audioLoopAvail : Bool
  audioLoopRaises : Bool
  writeResult : Except String Unit
deriving DecidableEq

/-- The parameters a `MergeWorker` is constructed with
(src/main.py lines 162–180). -/
structure MergeRequest where
  video_path : String
  audio_path : String
  output_path : String
  music_level : ℚ
  original_level : ℚ
  duck : Bool
deriving DecidableEq

/-- What one `MergeWorker.run` produces: the list of emitted signals, in
order, and the file written on success. -/
structure RunResult where
  signals : List Signal
  written : Option WrittenFile
deriving DecidableEq

/-- The ducking branch (src/main.py lines 222–229): when the duck flag is
set and the video has an embedded audio track, scale that track by the
original level via `_safe_vol` and combine it additively with the music;
otherwise the music alone becomes the attached stream. -/
def attachedAudioResult (caps : VolCaps) (duck : Bool)
    (original_level : ℚ) (original_audio : Option AudioClip)
    (music : AudioClip) : Except String AudioClip :=
  if duck then
    match original_audio with
    | some orig =>
      (_safe_vol caps orig original_level).map
        (fun bed => CompositeAudioClip [bed, music])
    | none => Except.ok music
  else Except.ok music

namespace MergeWorker

/-- Embedding of `MergeWorker.run` (src/main.py lines 182–248): the whole
body sits in one `try`; any exception becomes a single `failed` signal
carrying `str(e)`. Progress milestones 5/20/55/100 are emitted at the
points the source emits them. -/
def run (env : WorkerEnv) (req : MergeRequest) : RunResult :=
  if env.engine = "disabled" then
    { signals := [Signal.failed "FFmpeg unavailable."], written := none }
  else
    match env.loadVideo with
    | Except.error e =>
      { signals := [Signal.progress 5, Signal.failed e], written := none }
    | Except.ok v =>
      let duration := pythonOr v.duration 0
      let v_fps := pythonOr v.fps 25
      let original_audio := v.audio
      match env.loadMusic with
      | Except.error e =>
        { signals := [Signal.progress 5, Signal.progress 20, Signal.failed e],
          written := none }
      | Except.ok music0 =>
        match _safe_vol env.musicCaps music0 req.music_level with
        | Except.error e =>
          { signals := [Signal.progress 5, Signal.progress 20, Signal.failed e],
            written := none }
        | Except.ok music1 =>
          let music2 :=
            loopStep env.audioLoopAvail env.audioLoopRaises duration music1
          match attachedAudioResult env.originalCaps req.duck
              req.original_level original_audio music2 with
          | Except.error e =>
            { signals :=
                [Signal.progress 5, Signal.progress 20, Signal.failed e],
              written := none }
          | Except.ok attached =>
            let merged_clip := with_audio v attached
            match env.writeResult with
            | Except.error e =>
              { signals :=
                  [Signal.progress 5, Signal.progress 20, Signal.progress 55,
                   Signal.failed e],
                written := none }
            | Except.ok _ =>
              { signals :=
                  [Signal.progress 5, Signal.progress 20, Signal.progress 55,
                   Signal.progress 100, Signal.finished req.output_path],
                written := some ⟨req.output_path, merged_clip, v_fps⟩ }

end MergeWorker

/-- C4: every run of the merge job emits exactly one terminal signal, as
its last emission: the signal list is a block of non-terminal (progress)
signals followed by one terminal signal, and that terminal signal is either
`finished` carrying the output path or `failed` carrying an error string. -/
theorem merge_run_exactly_one_terminal (env : WorkerEnv) (req : MergeRequest) :
    ∃ pre t, (MergeWorker.run env req).signals = pre ++ [t] ∧
      (∀ s ∈ pre, isTerminalSignal s = false) ∧
      (t = Signal.finished req.output_path ∨ ∃ m, t = Signal.failed m) := by
  unfold MergeWorker.run
  dsimp only
  repeat' split
  all_goals first
    | exact ⟨[], _, rfl, by simp, Or.inr ⟨_, rfl⟩⟩
    | exact ⟨[Signal.progress 5], _, rfl,
        by simp [isTerminalSignal], Or.inr ⟨_, rfl⟩⟩
    | exact ⟨[Signal.progress 5, Signal.progress 20], _, rfl,
        by simp [isTerminalSignal], Or.inr ⟨_, rfl⟩⟩
    | exact ⟨[Signal.progress 5, Signal.progress 20, Signal.progress 55], _,
        rfl, by simp [isTerminalSignal], Or.inr ⟨_, rfl⟩⟩
    | exact ⟨[Signal.progress 5, Signal.progress 20, Signal.progress 55,
        Signal.progress 100], _, rfl,
        by simp [isTerminalSignal], Or.inl rfl⟩

/-- C6: when the Engine State is `"disabled"`, the run fails at once: the
only signal is `failed "FFmpeg unavailable."` — no input is loaded, no
progress milestone is emitted, nothing is written. -/
theorem merge_run_engine_disabled (env : WorkerEnv) (req : MergeRequest)
    (h : env.engine = "disabled") :
    MergeWorker.run env req =
      { signals := [Signal.failed "FFmpeg unavailable."], written := none } := by
  unfold MergeWorker.run
  rw [if_pos h]

/-- A concrete music clip for witness environments. -/
def musicClipW : AudioClip := { samples := [1, 2], duration := 2 }

/-- A concrete embedded-audio clip for witness environments. -/
def originalClipW : AudioClip := { samples := [3], duration := 1 }

/-- A concrete loaded video for witness environments. -/
def videoClipW : VideoClip :=
  { duration := some 4, fps := some 30, audio := some originalClipW }

/-- Capabilities where the native `volumex` method works. -/
def capsNativeW : VolCaps :=
  { hasVolumexMethod := true, volumexMethodRaises := false,
    fxFunctionDefined := true, fxCallRaises := false,
    hasFlMethod := true, flCallRaises := false }

/-- A concrete worker environment in which every step succeeds. -/
def envOkW : WorkerEnv :=
  { engine := "system-ffmpeg", loadVideo := Except.ok videoClipW,
    loadMusic := Except.ok musicClipW, musicCaps := capsNativeW,
    originalCaps := capsNativeW, audioLoopAvail := true,
    audioLoopRaises := false, writeResult := Except.ok () }

/-- A concrete merge request with ducking enabled. -/
def reqDuckW : MergeRequest :=
  { video_path := "v.mp4", audio_path := "m.mp3", output_path := "out.mp4",
    music_level := 1 / 2, original_level := 1 / 5, duck := true }

/-- Witness for C6: a concrete disabled-engine environment, evaluated. -/
theorem merge_run_engine_disabled_witness :
    MergeWorker.run { envOkW with engine := "disabled" } reqDuckW =
      { signals := [Signal.failed "FFmpeg unavailable."], written := none } :=
  merge_run_engine_disabled { envOkW with engine := "disabled" } reqDuckW rfl

/-- When the `audio_loop` call raises, the music keeps its natural length. -/
theorem loopStep_raises (avail : Bool) (d : ℚ) (m : AudioClip) :
    loopStep avail true d m = m := by
  simp [loopStep]

/-- When `audio_loop` failed to import, the music keeps its natural length. -/
theorem loopStep_unavail (raises : Bool) (d : ℚ) (m : AudioClip) :
    loopStep false raises d m = m := by
  simp [loopStep]

/-- C2: when the whole pipeline succeeds, the written clip's audio is the
`_safe_vol`-scaled original track combined additively with the (looped)
music whenever the duck flag is set and the video has an embedded audio
track, and it is the (looped) music alone in every other case. -/
theorem merge_run_ducking (env : WorkerEnv) (req : MergeRequest)
    (v : VideoClip) (m0 m1 : AudioClip)
    (heng : ¬ env.engine = "disabled")
    (hv : env.loadVideo = Except.ok v)
    (hm : env.loadMusic = Except.ok m0)
    (hvol : _safe_vol env.musicCaps m0 req.music_level = Except.ok m1)
    (hw : env.writeResult = Except.ok ()) :
    (∀ orig bed, req.duck = true → v.audio = some orig →
      _safe_vol env.originalCaps orig req.original_level = Except.ok bed →
      (MergeWorker.run env req).written = some
        { path := req.output_path,
          clip := with_audio v (CompositeAudioClip
            [bed, loopStep env.audioLoopAvail env.audioLoopRaises
              (pythonOr v.duration 0) m1]),
          fps := pythonOr v.fps 25 }) ∧
    ((req.duck = false ∨ v.audio = none) →
      (MergeWorker.run env req).written = some
        { path := req.output_path,
          clip := with_audio v (loopStep env.audioLoopAvail
            env.audioLoopRaises (pythonOr v.duration 0) m1),
          fps := pythonOr v.fps 25 }) := by
  constructor
  · intro orig bed hduck haud hbed
    simp only [MergeWorker.run, if_neg heng, hv, hm, hvol, hw,
      attachedAudioResult, hduck, if_true, haud, hbed, Except.map]
  · intro hcase
    rcases hcase with hduck | haud
    · simp only [MergeWorker.run, if_neg heng, hv, hm, hvol, hw,
        attachedAudioResult, hduck, if_false, Bool.false_eq_true, ite_false]
    · simp only [MergeWorker.run, if_neg heng, hv, hm, hvol, hw,
        attachedAudioResult, haud, ite_self]

/-- C5: the looping step is best-effort — when the video duration is
positive and `audio_loop` is importable and does not raise, the music is
extended to at least the video duration; when `audio_loop` is absent or
raises, the music keeps its natural length, and a raising `audio_loop`
leaves the whole run exactly as if looping were unavailable (it never
fails the job). -/
theorem music_loop_best_effort (env : WorkerEnv) (req : MergeRequest)
    (d : ℚ) (m : AudioClip) :
    (0 < d → env.audioLoopAvail = true → env.audioLoopRaises = false →
      d ≤ (loopStep env.audioLoopAvail env.audioLoopRaises d m).duration) ∧
    (env.audioLoopAvail = false ∨ env.audioLoopRaises = true →
      loopStep env.audioLoopAvail env.audioLoopRaises d m = m) ∧
    (env.audioLoopRaises = true →
      MergeWorker.run env req =
        MergeWorker.run { env with audioLoopAvail := false } req) := by
  refine ⟨?_, ?_, ?_⟩
  · intro hd ha hr
    rw [ha, hr]
    simp [loopStep, audio_loop_sem, decide_eq_true hd]
  · intro hcase
    rcases hcase with ha | hr
    · rw [ha]
      exact loopStep_unavail _ d m
    · rw [hr]
      exact loopStep_raises _ d m
  · intro hr
    rcases env with ⟨e, lv, lm, mc, oc, avail, raises, wr⟩
    simp only at hr
    subst hr
    simp only [MergeWorker.run, loopStep_raises, loopStep_unavail]

/-- C10: when the loaded video has no embedded audio track, the run with
the duck flag set and any original level is identical to the run with
ducking disabled and any other original level: the original-level
parameter has no influence and the music stream alone is attached. -/
theorem no_original_audio_level_independent (env : WorkerEnv)
    (req : MergeRequest) (v : VideoClip) (l1 l2 : ℚ)
    (hv : env.loadVideo = Except.ok v) (ha : v.audio = none) :
    MergeWorker.run env { req with duck := true, original_level := l1 } =
      MergeWorker.run env { req with duck := false, original_level := l2 } := by
  by_cases heng : env.engine = "disabled"
  · simp [MergeWorker.run, heng]
  · cases hlm : env.loadMusic with
    | error e => simp [MergeWorker.run, heng, hv, hlm]
    | ok m0 =>
      cases hvol : _safe_vol env.musicCaps m0 req.music_level with
      | error e => simp [MergeWorker.run, heng, hv, hlm, hvol]
      | ok m1 =>
        cases hwr : env.writeResult with
        | error e =>
          simp [MergeWorker.run, heng, hv, hlm, hvol, ha,
            attachedAudioResult, hwr]
        | ok u =>
          simp [MergeWorker.run, heng, hv, hlm, hvol, ha,
            attachedAudioResult, hwr]

/-- Witness for C2: in the all-success environment with ducking on, the
written clip carries the additive mix of the scaled original track and the
looped scaled music. -/
theorem merge_run_ducking_witness :
    (MergeWorker.run envOkW reqDuckW).written = some
      { path := reqDuckW.output_path,
        clip := with_audio videoClipW (CompositeAudioClip
          [scaleSamples reqDuckW.original_level originalClipW,
           loopStep envOkW.audioLoopAvail envOkW.audioLoopRaises
             (pythonOr videoClipW.duration 0)
             (scaleSamples reqDuckW.music_level musicClipW)]),
        fps := pythonOr videoClipW.fps 25 } :=
  (merge_run_ducking envOkW reqDuckW videoClipW musicClipW _
    (by decide) rfl rfl rfl rfl).1 originalClipW _ rfl rfl rfl

/-- The all-success environment, except that calling `audio_loop` raises. -/
def envLoopRaisesW : WorkerEnv := { envOkW with audioLoopRaises := true }

/-- Witness for C5: with a positive duration the loop step reaches the
requested duration; with a raising `audio_loop` the music is unchanged and
the whole run equals the run without the looping primitive. -/
theorem music_loop_best_effort_witness :
    ((4 : ℚ) ≤
      (loopStep envOkW.audioLoopAvail envOkW.audioLoopRaises 4
        musicClipW).duration) ∧
    loopStep envLoopRaisesW.audioLoopAvail envLoopRaisesW.audioLoopRaises 4
      musicClipW = musicClipW ∧
    MergeWorker.run envLoopRaisesW reqDuckW =
      MergeWorker.run { envLoopRaisesW with audioLoopAvail := false }
        reqDuckW :=
  ⟨(music_loop_best_effort envOkW reqDuckW 4 musicClipW).1
      (by norm_num) rfl rfl,
   (music_loop_best_effort envLoopRaisesW reqDuckW 4 musicClipW).2.1
      (Or.inr rfl),
   (music_loop_best_effort envLoopRaisesW reqDuckW 4 musicClipW).2.2 rfl⟩

/-- A concrete loaded video without an embedded audio track. -/
def videoNoAudioW : VideoClip :=
  { duration := some 4, fps := some 30, audio := none }

/-- The all-success environment whose video has no audio track. -/
def envNoAudioW : WorkerEnv := { envOkW with loadVideo := Except.ok videoNoAudioW }

/-- Witness for C10: with no embedded audio, ducking on with original
level 1/5 gives the very same run as ducking off with original level
9/10. -/
theorem no_original_audio_witness :
    MergeWorker.run envNoAudioW
        { reqDuckW with duck := true, original_level := 1 / 5 } =
      MergeWorker.run envNoAudioW
        { reqDuckW with duck := false, original_level := 9 / 10 } :=
  no_original_audio_level_independent envNoAudioW reqDuckW videoNoAudioW
    (1 / 5) (9 / 10) rfl rfl

/-- The environment `ensure_ffmpeg_available` probes: the result of
`shutil.which("ffmpeg")`, the outcome of
`imageio_ffmpeg.get_ffmpeg_exe()` (which may raise), and
`os.path.exists`. -/
structure LocatorEnv where
  whichResult : Option String
  bundledResult : Except String String
  pathExists : String → Bool

/-- The `FileNotFoundError` message of src/main.py line 58 (the quotation
marks the source puts around the package name are dropped here; no claim
depends on the exact text). -/
def noFfmpegMsg : String :=
  "No FFmpeg executable found. Install FFmpeg or keep imageio-ffmpeg installed."

/-- Embedding of `ensure_ffmpeg_available` (src/main.py lines 27–58):
returns the value the global `ENGINE` is set to, paired with the returned
path or the raised error. A system FFmpeg on the PATH wins outright; only
when that is absent is the bundled copy tried, and it is accepted only
when the resolved path exists on disk; otherwise `ENGINE` becomes
`"disabled"` and `FileNotFoundError` is raised. -/
def ensure_ffmpeg_available (env : LocatorEnv) :
    String × Except String String :=
  match env.whichResult with
  | some p => ("system-ffmpeg", Except.ok p)
  | none =>
    match env.bundledResult with
    | Except.ok p =>
      if env.pathExists p then ("bundled-ffmpeg", Except.ok p)
      else ("disabled", Except.error noFfmpegMsg)
    | Except.error _ => ("disabled", Except.error noFfmpegMsg)

/-- The module-level state after the import-time probe: the `ENGINE`
value, the `FFMPEG_ERROR` global, and the `IMAGEIO_FFMPEG_EXE`
environment variable. -/
structure StartupState where
  engine : String
  ffmpegError : Option String
  exePathVar : Option String
deriving DecidableEq

/-- Embedding of the module-level setup (src/main.py lines 60–64): the
exception from `ensure_ffmpeg_available` is caught and recorded in
`FFMPEG_ERROR`; on success the path goes into `IMAGEIO_FFMPEG_EXE`.
Either way the module keeps loading (a total function: no abort). -/
def module_startup (env : LocatorEnv) : StartupState :=
  match ensure_ffmpeg_available env with
  | (eng, Except.ok p) => ⟨eng, none, some p⟩
  | (eng, Except.error m) => ⟨eng, some m, none⟩

/-- C3: the locator prefers a system FFmpeg on the PATH (ignoring the
bundled copy entirely); only when the PATH search fails does it accept the
bundled copy, and only when the resolved path exists on disk; when both
fail the engine is `"disabled"`, the error is recorded rather than
propagated, and startup completes. -/
theorem ffmpeg_locator_order (env : LocatorEnv) :
    (∀ p, env.whichResult = some p →
      module_startup env = ⟨"system-ffmpeg", none, some p⟩) ∧
    (∀ p, env.whichResult = none → env.bundledResult = Except.ok p →
      env.pathExists p = true →
      module_startup env = ⟨"bundled-ffmpeg", none, some p⟩) ∧
    (∀ p, env.whichResult = none → env.bundledResult = Except.ok p →
      env.pathExists p = false →
      module_startup env = ⟨"disabled", some noFfmpegMsg, none⟩) ∧
    (∀ m, env.whichResult = none → env.bundledResult = Except.error m →
      module_startup env = ⟨"disabled", some noFfmpegMsg, none⟩) := by
  refine ⟨?_, ?_, ?_, ?_⟩
  · intro p hw
    simp [module_startup, ensure_ffmpeg_available, hw]
  · intro p hw hb he
    simp [module_startup, ensure_ffmpeg_available, hw, hb, he]
  · intro p hw hb he
    simp [module_startup, ensure_ffmpeg_available, hw, hb, he]
  · intro m hw hb
    simp [module_startup, ensure_ffmpeg_available, hw, hb]

/-- Witness for C3: the four locator cases evaluated on concrete probe
environments. -/
theorem ffmpeg_locator_order_witness :
    module_startup ⟨some "/usr/bin/ffmpeg", Except.error "no wheel",
        fun _ => false⟩ = ⟨"system-ffmpeg", none, some "/usr/bin/ffmpeg"⟩ ∧
    module_startup ⟨none, Except.ok "/opt/bundled/ffmpeg", fun _ => true⟩ =
      ⟨"bundled-ffmpeg", none, some "/opt/bundled/ffmpeg"⟩ ∧
    module_startup ⟨none, Except.ok "/opt/bundled/ffmpeg", fun _ => false⟩ =
      ⟨"disabled", some noFfmpegMsg, none⟩ ∧
    module_startup ⟨none, Except.error "no wheel", fun _ => false⟩ =
      ⟨"disabled", some noFfmpegMsg, none⟩ :=
  ⟨(ffmpeg_locator_order _).1 "/usr/bin/ffmpeg" rfl,
   (ffmpeg_locator_order _).2.1 "/opt/bundled/ffmpeg" rfl rfl rfl,
   (ffmpeg_locator_order _).2.2.1 "/opt/bundled/ffmpeg" rfl rfl rfl,
   (ffmpeg_locator_order _).2.2.2 "no wheel" rfl rfl⟩

/-- The characters of the `".mp4"` extension. -/
def dotMp4 : List Char := ['.', 'm', 'p', '4']

/-- Embedding of the filename fix-up in `merge_and_preview`
(src/main.py lines 503–504): `if not out_path.lower().endswith(".mp4"):
out_path += ".mp4"`. Paths are modelled as their character lists. -/
def ensure_mp4_suffix (out : List Char) : List Char :=
  if dotMp4.isSuffixOf (out.map Char.toLower) then out else out ++ dotMp4

/-- C9: the path handed to the merge job always ends in `.mp4` (up to
letter case), and when the user-chosen name lacks that extension the
literal `".mp4"` is appended, while a name that already has it is kept
as chosen. -/
theorem output_path_always_mp4 (out : List Char) :
    dotMp4.isSuffixOf ((ensure_mp4_suffix out).map Char.toLower) = true ∧
    (dotMp4.isSuffixOf (out.map Char.toLower) = false →
      ensure_mp4_suffix out = out ++ dotMp4) ∧
    (dotMp4.isSuffixOf (out.map Char.toLower) = true →
      ensure_mp4_suffix out = out) := by
  by_cases h : dotMp4.isSuffixOf (out.map Char.toLower) = true
  · refine ⟨?_, ?_, ?_⟩
    · rw [ensure_mp4_suffix, if_pos h]
      exact h
    · intro hfalse
      rw [hfalse] at h
      exact absurd h (by simp)
    · intro _
      rw [ensure_mp4_suffix, if_pos h]
  · refine ⟨?_, ?_, ?_⟩
    · rw [ensure_mp4_suffix, if_neg h]
      have hlow : dotMp4.map Char.toLower = dotMp4 := by decide
      have hmap : (out ++ dotMp4).map Char.toLower =
          out.map Char.toLower ++ dotMp4 := by
        rw [List.map_append, hlow]
      rw [hmap]
      simp [List.isSuffixOf_iff_suffix, List.suffix_append]
    · intro _
      rw [ensure_mp4_suffix, if_neg h]
    · intro htrue
      exact absurd htrue h

/-- Witness for C9: a name without the extension gets `".mp4"` appended;
a name already carrying it (in upper case) is kept. -/
theorem output_path_always_mp4_witness :
    ensure_mp4_suffix ['c', 'l', 'i', 'p'] =
      ['c', 'l', 'i', 'p', '.', 'm', 'p', '4'] ∧
    ensure_mp4_suffix ['c', '.', 'M', 'P', '4'] = ['c', '.', 'M', 'P', '4'] :=
  ⟨(output_path_always_mp4 ['c', 'l', 'i', 'p']).2.1 (by decide),
   (output_path_always_mp4 ['c', '.', 'M', 'P', '4']).2.2 (by decide)⟩

/-- The fixed context of the interface layer: whether the engine probe
succeeded (`ENGINE ≠ "disabled"`), set once at startup. -/
structure UIEnv where
  engineOk : Bool
deriving DecidableEq

/-- The interface-layer state the single-job invariant is about: whether a
video and a music file have been selected, whether the merge trigger is
enabled, and how many merge jobs are currently running. -/
structure UIState where
  videoSel : Bool
  audioSel : Bool
  mergeEnabled : Bool
  jobsActive : ℕ
deriving DecidableEq

/-- The user/worker events that touch the merge trigger: a successful
video pick, a successful music pick, a click on the (enabled) merge
button with the save dialog confirmed or cancelled, and delivery of a
job's terminal outcome. -/
inductive UIEvent
  | pickVideo
  | pickAudio
  | clickMerge (dialogAccepted : Bool)
  | jobTerminal
deriving DecidableEq

/-- Embedding of `MainWindow.enable_merge_if_ready`
(src/main.py lines 439–441): the merge trigger is enabled exactly when
both files are selected and the engine is available — the number of
running jobs is not consulted. -/
def enable_merge_if_ready (env : UIEnv) (s : UIState) : UIState :=
  { s with mergeEnabled := s.videoSel && s.audioSel && env.engineOk }

/-- One interface-layer transition. `pickVideo` / `pickAudio` are the tail
of `pick_video` / `pick_audio` (lines 419–437): record the selection, then
call `enable_merge_if_ready`. `clickMerge` is `merge_and_preview`
(lines 479–536): it can only fire while the trigger is enabled (a disabled
Qt button emits no `clicked`), returns early when a file is missing, the
engine is disabled, or the save dialog is cancelled, and otherwise
disables the trigger and starts one more worker. `jobTerminal` is
`on_merge_finished` / `on_merge_failed` (lines 538–568): the job ends and
`enable_merge_if_ready` runs. -/
def uiStep (env : UIEnv) (s : UIState) : UIEvent → UIState
  | UIEvent.pickVideo => enable_merge_if_ready env { s with videoSel := true }
  | UIEvent.pickAudio => enable_merge_if_ready env { s with audioSel := true }
  | UIEvent.clickMerge accepted =>
    if s.mergeEnabled then
      if s.videoSel && s.audioSel then
        if env.engineOk then
          if accepted then
            { s with mergeEnabled := false, jobsActive := s.jobsActive + 1 }
          else s
        else s
      else s
    else s
  | UIEvent.jobTerminal =>
    enable_merge_if_ready env { s with jobsActive := s.jobsActive - 1 }

/-- A run of the interface layer from its start state (nothing selected,
trigger disabled, no job). -/
def uiRun (env : UIEnv) (events : List UIEvent) : UIState :=
  events.foldl (uiStep env) ⟨false, false, false, 0⟩

/-- C8 (code bug): picking a file while a job is in flight re-enables the
merge trigger (`enable_merge_if_ready` never looks at the running job), so
a second click starts a second concurrent job: after
pick video → pick music → merge → pick video, the trigger is enabled with
a job still active, and one more click leaves two jobs active. -/
theorem merge_trigger_reenabled_in_flight :
    (uiRun ⟨true⟩ [UIEvent.pickVideo, UIEvent.pickAudio,
        UIEvent.clickMerge true, UIEvent.pickVideo]).jobsActive = 1 ∧
    (uiRun ⟨true⟩ [UIEvent.pickVideo, UIEvent.pickAudio,
        UIEvent.clickMerge true, UIEvent.pickVideo]).mergeEnabled = true ∧
    (uiRun ⟨true⟩ [UIEvent.pickVideo, UIEvent.pickAudio,
        UIEvent.clickMerge true, UIEvent.pickVideo,
        UIEvent.clickMerge true]).jobsActive = 2 := by
  decide
